import Mathlib

/-!
Verification of the codium-devcontainer extension against its specification.

The definitions below are a shallow embedding of `src/extension.ts` and of the
in-container supervisor `assets/devcontainer/entrypoint.sh`.  External effects
(docker commands, dialogs, the filesystem) are modelled as explicit inputs
(`HostEnv`, `UserEnv`, `FsState`, `Obs`) and as traces of emitted actions.
-/

namespace Codium

/-! ### Workspace slug derivation (`makeWorkspaceSlug`, extension.ts lines 74-80) -/

/-- Characters allowed by the sanitization class `[a-z0-9._-]`. -/
def isSlugChar (c : Char) : Bool :=
  (decide (Char.ofNat 97 ≤ c) && decide (c ≤ Char.ofNat 122)) ||
  (decide (Char.ofNat 48 ≤ c) && decide (c ≤ Char.ofNat 57)) ||
  (c == Char.ofNat 46) || (c == Char.ofNat 95) || (c == Char.ofNat 45)

/-- Separator characters stripped from the ends: `.`, `_`, `-`. -/
def isSepChar (c : Char) : Bool :=
  (c == Char.ofNat 46) || (c == Char.ofNat 95) || (c == Char.ofNat 45)

/-- Model of the JS `name.replace(/[^a-z0-9._-]+/g, "-")`: each maximal run of
characters outside the class becomes a single `-`.  The Boolean argument tracks
whether the previous character was part of such a run. -/
def replaceRuns : Bool → List Char → List Char
  | _, [] => []
  | inRun, c :: rest =>
    if isSlugChar c then c :: replaceRuns false rest
    else if inRun then replaceRuns true rest
    else Char.ofNat 45 :: replaceRuns true rest

/-- Model of the JS `slug.replace(/^[._-]+|[._-]+$/g, "")`: drop the leading
and the trailing run of separator characters. -/
def stripSepEnds (l : List Char) : List Char :=
  (((l.dropWhile isSepChar).reverse.dropWhile isSepChar)).reverse

/-- Model of Node `path.posix.basename`. -/
def posixBasename (p : String) : String :=
  let cs := p.toList
  let noTrail := (cs.reverse.dropWhile (fun c => c == Char.ofNat 47)).reverse
  if noTrail.isEmpty then
    if cs.isEmpty then "" else String.mk [Char.ofNat 47]
  else
    String.mk ((noTrail.reverse.takeWhile (fun c => !(c == Char.ofNat 47))).reverse)

/-- The sanitization part of `makeWorkspaceSlug`: lowercase the basename,
replace runs of disallowed characters by `-`, strip separator ends. -/
def sanitizeSlug (wsFsPath : String) : List Char :=
  stripSepEnds (replaceRuns false ((posixBasename wsFsPath).toList.map Char.toLower))

/-- `makeWorkspaceSlug` from extension.ts: the sanitized basename, or the
fallback token `workspace` when sanitization yields the empty string. -/
def makeWorkspaceSlug (wsFsPath : String) : String :=
  let slug := sanitizeSlug wsFsPath
  if slug.isEmpty then "workspace" else String.mk slug

theorem replaceRuns_all_slug (b : Bool) (l : List Char) :
    ∀ c ∈ replaceRuns b l, isSlugChar c = true := by
  induction l generalizing b with
  | nil => intro c hc; simp [replaceRuns] at hc
  | cons x xs ih =>
    intro c hc
    simp only [replaceRuns] at hc
    by_cases hx : isSlugChar x
    · simp [hx] at hc
      rcases hc with h | h
      · exact h ▸ hx
      · exact ih false c h
    · simp [hx] at hc
      cases b with
      | true => simpa using ih true c (by simpa using hc)
      | false =>
        simp at hc
        rcases hc with h | h
        · subst h; decide
        · exact ih true c h

theorem stripSepEnds_subset (l : List Char) :
    ∀ c ∈ stripSepEnds l, c ∈ l := by
  intro c hc
  unfold stripSepEnds at hc
  rw [List.mem_reverse] at hc
  have h1 := (List.dropWhile_sublist (l := (l.dropWhile isSepChar).reverse)
    (p := isSepChar)).mem hc
  rw [List.mem_reverse] at h1
  exact (List.dropWhile_sublist (l := l) (p := isSepChar)).mem h1

theorem takeWhile_eq_nil_of_head (p : Char → Bool) (l : List Char)
    (h : ∀ c, l.head? = some c → p c = false) : l.takeWhile p = [] := by
  cases l with
  | nil => rfl
  | cons x xs =>
    have hx : p x = false := h x rfl
    simp [List.takeWhile_cons, hx]

theorem getLast?_dropWhile (p : Char → Bool) (l : List Char)
    (h : l.dropWhile p ≠ []) : (l.dropWhile p).getLast? = l.getLast? := by
  induction l with
  | nil => simp at h
  | cons x xs ih =>
    by_cases hx : p x
    · rw [List.dropWhile_cons_of_pos hx] at h ⊢
      have hxs : xs ≠ [] := by
        intro he; subst he; simp [List.dropWhile] at h
      rw [ih h, List.getLast?_cons]
      cases hxe : xs.getLast? with
      | none => exact absurd (List.getLast?_eq_none_iff.mp hxe) hxs
      | some y => simp
    · rw [List.dropWhile_cons_of_neg hx]

/-- Head of the strip result is the head of the first `dropWhile`, hence not a
separator. -/
theorem stripSepEnds_no_sep_ends (l : List Char) :
    (stripSepEnds l).takeWhile isSepChar = [] ∧
    (stripSepEnds l).reverse.takeWhile isSepChar = [] := by
  constructor
  · apply takeWhile_eq_nil_of_head
    intro c hc
    unfold stripSepEnds at hc
    rw [List.head?_reverse] at hc
    set m := (l.dropWhile isSepChar).reverse.dropWhile isSepChar with hm
    have hmne : m ≠ [] := by
      intro he; rw [he] at hc; simp at hc
    have h1 : m.getLast? = (l.dropWhile isSepChar).reverse.getLast? :=
      getLast?_dropWhile _ _ hmne
    rw [hc] at h1
    rw [List.getLast?_reverse] at h1
    have h2 := List.head?_dropWhile_not isSepChar l
    rw [← h1] at h2
    simpa using h2
  · apply takeWhile_eq_nil_of_head
    intro c hc
    unfold stripSepEnds at hc
    rw [List.reverse_reverse] at hc
    have h2 := List.head?_dropWhile_not isSepChar (l.dropWhile isSepChar).reverse
    rw [hc] at h2
    simpa using h2

/-- C7 main lemma over lists: characters, ends, and the fallback case. -/
theorem sanitizeSlug_chars (p : String) :
    ∀ c ∈ sanitizeSlug p, isSlugChar c = true := by
  intro c hc
  exact replaceRuns_all_slug false _ c (stripSepEnds_subset _ c hc)

/-- C7: for every workspace folder path, the derived slug is non-empty, all
its characters are in `[a-z0-9._-]`, it has no leading or trailing separator
characters, and when sanitization yields the empty string the fixed fallback
`workspace` is returned. -/
theorem makeWorkspaceSlug_sound (p : String) :
    (makeWorkspaceSlug p ≠ "" ∧
     (makeWorkspaceSlug p).toList.all isSlugChar = true ∧
     (makeWorkspaceSlug p).toList.takeWhile isSepChar = [] ∧
     (makeWorkspaceSlug p).toList.reverse.takeWhile isSepChar = []) ∧
    (sanitizeSlug p = [] → makeWorkspaceSlug p = "workspace") := by
  constructor
  · unfold makeWorkspaceSlug
    by_cases he : (sanitizeSlug p).isEmpty
    · rw [if_pos he]
      refine ⟨by decide, by decide, by decide, by decide⟩
    · rw [if_neg he]
      have hne : sanitizeSlug p ≠ [] := by
        intro h; rw [h] at he; simp at he
      refine ⟨?_, ?_, ?_, ?_⟩
      · intro h
        apply hne
        have : (String.mk (sanitizeSlug p)).data = ("" : String).data := by rw [h]
        simpa using this
      · have : (String.mk (sanitizeSlug p)).toList = sanitizeSlug p := rfl
        rw [this, List.all_eq_true]
        exact sanitizeSlug_chars p
      · exact (stripSepEnds_no_sep_ends _).1
      · exact (stripSepEnds_no_sep_ends _).2
  · intro h
    unfold makeWorkspaceSlug
    rw [h]
    rfl

/-- Witness for C7 at a concrete input where sanitization is empty. -/
theorem makeWorkspaceSlug_sound_witness :
    makeWorkspaceSlug "!!!" = "workspace" :=
  (makeWorkspaceSlug_sound "!!!").2 (by decide)

/-! ### In-container supervisor (`assets/devcontainer/entrypoint.sh`) -/

/-- Supervisor configuration: `CHECK_INTERVAL` and `IDLE_GRACE_SECONDS`
(entrypoint.sh lines 27-28, defaults 2 and 60). -/
structure SupCfg where
  checkInterval : Nat
  idleGraceSeconds : Nat
deriving DecidableEq, Repr

/-- What one poll iteration of the supervisor loop observes: whether the
stop-request file exists, whether `ss` reports an established connection on
port 22, and whether `sshd` is still alive at the post-sleep liveness check. -/
structure Obs where
  stopFileExists : Bool
  activeSsh : Bool
  sshdAlive : Bool
deriving DecidableEq, Repr

/-- Outcome of one poll iteration.  `terminated` means `cleanup` ran (graceful
exit 0); the flag records whether the stop file was deleted on the way.
`fatal` is the `exit 1` taken when `sshd` died (no cleanup). -/
inductive StepOut
  | continued (idle : Nat)
  | terminated (deletedStopFile : Bool)
  | fatal
deriving DecidableEq, Repr

/-- One iteration of the `while true` poll loop (entrypoint.sh lines 32-54):
stop-file check first, then the connection probe driving the idle accumulator,
then (after `sleep`) the `sshd` liveness check. -/
def supervisorStep (cfg : SupCfg) (idle : Nat) (o : Obs) : StepOut :=
  if o.stopFileExists then
    StepOut.terminated true
  else if o.activeSsh then
    if o.sshdAlive then StepOut.continued 0 else StepOut.fatal
  else
    let idle2 := idle + cfg.checkInterval
    if cfg.idleGraceSeconds ≤ idle2 then StepOut.terminated false
    else if o.sshdAlive then StepOut.continued idle2 else StepOut.fatal

/-- Outcome of running the loop for a bounded number of iterations. -/
inductive RunOut
  | running (idle : Nat)
  | terminatedAt (cycle : Nat) (deletedStopFile : Bool)
  | fatalAt (cycle : Nat)
deriving DecidableEq, Repr

/-- Run the poll loop for `fuel` iterations starting at cycle index `k`
(cycles are reported 1-based) with idle accumulator `idle`; `obs k` is what
iteration `k` observes. -/
def supervisorRun (cfg : SupCfg) (obs : Nat → Obs) :
    Nat → Nat → Nat → RunOut
  | 0, _, idle => RunOut.running idle
  | Nat.succ n, k, idle =>
    match supervisorStep cfg idle (obs k) with
    | StepOut.continued idle2 => supervisorRun cfg obs n (k + 1) idle2
    | StepOut.terminated d => RunOut.terminatedAt (k + 1) d
    | StepOut.fatal => RunOut.fatalAt (k + 1)

/-- C4: on a poll iteration in which the connection probe runs (no stop file)
and detects an established SSH connection, the supervisor never transitions to
terminating (never runs `cleanup`), whatever the accumulated idle time and
whatever the `sshd` liveness check says. -/
theorem supervisor_never_terminates_when_connected (cfg : SupCfg) (idle : Nat)
    (o : Obs) (hstop : o.stopFileExists = false) (hconn : o.activeSsh = true) :
    ∀ b, supervisorStep cfg idle o ≠ StepOut.terminated b := by
  intro b
  unfold supervisorStep
  rw [hstop, hconn]
  cases o.sshdAlive <;> simp

/-- Witness for C4: a concrete iteration with huge accumulated idle time and an
active connection continues with the accumulator reset. -/
theorem supervisor_never_terminates_when_connected_witness :
    supervisorStep ⟨2, 60⟩ 100000 ⟨false, true, true⟩ ≠ StepOut.terminated false :=
  supervisor_never_terminates_when_connected ⟨2, 60⟩ 100000
    ⟨false, true, true⟩ rfl rfl false

/-- C5: whenever the stop-request file exists at the start of a poll
iteration, the supervisor deletes it and terminates gracefully in that same
iteration, for every idle accumulator value and connection state. -/
theorem supervisor_stop_file_terminates (cfg : SupCfg) (idle : Nat) (o : Obs)
    (hstop : o.stopFileExists = true) :
    supervisorStep cfg idle o = StepOut.terminated true := by
  unfold supervisorStep
  rw [hstop]
  rfl

/-- Witness for C5: with active connections and zero idle time the stop file
still terminates the iteration. -/
theorem supervisor_stop_file_terminates_witness :
    supervisorStep ⟨2, 60⟩ 0 ⟨true, true, true⟩ = StepOut.terminated true :=
  supervisor_stop_file_terminates ⟨2, 60⟩ 0 ⟨true, true, true⟩ rfl

/-- Scenario D configuration: `IDLE_GRACE_SECONDS=10`, `CHECK_INTERVAL=2`. -/
def scenarioDCfg : SupCfg := ⟨2, 10⟩

/-- Scenario D observations: no stop file ever, no connection ever observed,
`sshd` stays alive. -/
def scenarioDObs : Nat → Obs := fun _ => ⟨false, false, true⟩

/-- C6: under scenario D the supervisor transitions to terminating on exactly
the 5th poll cycle (idle accumulator reaching 10) and is still running, with
idle accumulator `2*n`, after each of the first four cycles. -/
theorem supervisor_scenarioD :
    supervisorRun scenarioDCfg scenarioDObs 5 0 0 = RunOut.terminatedAt 5 false ∧
    supervisorRun scenarioDCfg scenarioDObs 1 0 0 = RunOut.running 2 ∧
    supervisorRun scenarioDCfg scenarioDObs 2 0 0 = RunOut.running 4 ∧
    supervisorRun scenarioDCfg scenarioDObs 3 0 0 = RunOut.running 6 ∧
    supervisorRun scenarioDCfg scenarioDObs 4 0 0 = RunOut.running 8 := by
  refine ⟨rfl, rfl, rfl, rfl, rfl⟩

/-! ### Session reconciler (`ensureContainerReadyAndGetPort`, extension.ts lines 941-1013) -/

/-- Answer to the first decision dialog (config changed since creation). -/
inductive Choice1
  | rebuild
  | reuse
deriving DecidableEq, Repr

/-- Answer to the second decision dialog (container currently running). -/
inductive Choice2
  | killRebuild
  | reuse
deriving DecidableEq, Repr

/-- Externally visible actions of the reconciler, in emission order:
the two modal prompts, `ensureContainerStarted`, the no-port warning,
`buildImageWithEntrypoint`, and the stop/rm and run halves of
`dockerRestartContainer`. -/
inductive HAction
  | promptConfigChanged
  | startContainer
  | warnNoPort
  | promptRunning
  | build
  | stopRemove
  | runContainer
deriving DecidableEq, Repr

/-- Environment a single reconciliation runs against: results of the docker
queries, the port the allocator would hand out, and the answers the user gives
to the two dialogs (`none` = dismissed). -/
structure HostEnv where
  containerExists : Bool
  dcMtimeMs : Option Nat
  createdMs : Option Nat
  mappedPort : Option Nat
  running : Bool
  freePort : Nat
  choice1 : Option Choice1
  choice2 : Option Choice2
deriving DecidableEq, Repr

/-- Result of a non-throwing reconciliation: the value of the local `port`
variable at the `return` (the code then applies the non-null assertion
`port!`), plus the emitted action trace. -/
structure ReadyResult where
  port : Option Nat
  trace : List HAction
deriving DecidableEq, Repr

/-- JS truthiness of the `port` variable (`undefined` and `0` are falsy). -/
def portTruthy : Option Nat → Bool
  | none => false
  | some p => p != 0

/-- JS `port || fallback`. -/
def jsOrElse (p : Option Nat) (fallback : Nat) : Nat :=
  match p with
  | some v => if v != 0 then v else fallback
  | none => fallback

/-- `shouldRebuildForDevcontainer` (extension.ts lines 286-290): rebuild is
suggested only when both the config mtime and the container creation time are
determinable and the mtime is strictly newer. -/
def shouldRebuildForDevcontainer (dcMtimeMs createdMs : Option Nat) : Bool :=
  match dcMtimeMs, createdMs with
  | some m, some c => decide (c < m)
  | _, _ => false

/-- `ensureContainerReadyAndGetPort` (extension.ts lines 941-1013).  A
dismissed dialog throws (`Except.error` carrying the trace emitted so far);
otherwise the final `port` variable and the full trace are returned. -/
def ensureContainerReadyAndGetPort (env : HostEnv) (forceRebuild : Bool) :
    Except (List HAction) ReadyResult :=
  if env.containerExists then
    let decision1 : Except (List HAction) (Bool × List HAction) :=
      if forceRebuild then Except.ok (forceRebuild, [])
      else
        let rebuildNeeded := shouldRebuildForDevcontainer env.dcMtimeMs env.createdMs
        if rebuildNeeded then
          match env.choice1 with
          | none => Except.error [HAction.promptConfigChanged]
          | some c =>
            Except.ok (decide (c = Choice1.rebuild), [HAction.promptConfigChanged])
        else Except.ok (rebuildNeeded, [])
    match decision1 with
    | Except.error t => Except.error t
    | Except.ok (uwr0, t0) =>
      let t1 := t0 ++ [HAction.startContainer]
      let port := env.mappedPort
      let uwr1 := if !portTruthy port && !uwr0 then true else uwr0
      let t2 := if !portTruthy port && !uwr0 then t1 ++ [HAction.warnNoPort] else t1
      if uwr1 || !portTruthy port || forceRebuild then
        let decision2 : Except (List HAction) (Bool × List HAction) :=
          if env.running then
            match env.choice2 with
            | none => Except.error (t2 ++ [HAction.promptRunning])
            | some Choice2.reuse =>
              Except.ok (false, t2 ++ [HAction.promptRunning])
            | some Choice2.killRebuild =>
              Except.ok (uwr1, t2 ++ [HAction.promptRunning])
          else Except.ok (uwr1, t2)
        match decision2 with
        | Except.error t => Except.error t
        | Except.ok (uwr2, t3) =>
          if uwr2 || !portTruthy port || forceRebuild then
            Except.ok ⟨some (jsOrElse port env.freePort),
              t3 ++ [HAction.build, HAction.stopRemove, HAction.runContainer]⟩
          else
            Except.ok ⟨port, t3⟩
      else
        Except.ok ⟨port, t2⟩
  else
    Except.ok ⟨some env.freePort,
      [HAction.build, HAction.stopRemove, HAction.runContainer]⟩

/-- C1: every non-throwing reconciliation with `forceRebuild = true` performs
at least one build, even when the container already exists, is running, has a
discoverable mapped port, and the user answers Reuse to the second dialog. -/
theorem ensureReady_force_always_builds (env : HostEnv) (r : ReadyResult)
    (h : ensureContainerReadyAndGetPort env true = Except.ok r) :
    HAction.build ∈ r.trace := by
  simp [ensureContainerReadyAndGetPort] at h
  repeat' split at h
  all_goals first
    | exact Except.noConfusion h
    | (injection h with h; subst h; simp)

/-- Witness for C1: existing, running container with a discovered port and a
Reuse answer still builds. -/
theorem ensureReady_force_always_builds_witness :
    HAction.build ∈
      (ReadyResult.mk (some 32768)
        [HAction.startContainer, HAction.promptRunning, HAction.build,
         HAction.stopRemove, HAction.runContainer]).trace :=
  ensureReady_force_always_builds
    ⟨true, none, none, some 32768, true, 4000, none, some Choice2.reuse⟩ _ rfl

theorem isSome_of_portTruthy (p : Option Nat) :
    portTruthy p = true → p.isSome = true := by
  cases p <;> simp [portTruthy]

/-- C10: every non-throwing reconciliation returns a defined port: the `port`
variable is `some _` on every `Except.ok` path, so the non-null assertion at
the return never observes `undefined`. -/
theorem ensureReady_port_defined (env : HostEnv) (force : Bool)
    (r : ReadyResult) (h : ensureContainerReadyAndGetPort env force = Except.ok r) :
    r.port.isSome = true := by
  simp [ensureContainerReadyAndGetPort] at h
  repeat' split at h
  all_goals first
    | exact Except.noConfusion h
    | (injection h with h; subst h; simp_all [isSome_of_portTruthy])

/-- Witness for C10 on a fresh workspace (container absent). -/
theorem ensureReady_port_defined_witness :
    (ReadyResult.mk (some 5000)
      [HAction.build, HAction.stopRemove, HAction.runContainer]).port.isSome = true :=
  ensureReady_port_defined
    ⟨false, none, none, none, false, 5000, none, none⟩ false _ rfl

/-- C3: when the container exists and the config mtime is strictly newer than
the container creation time (both determinable), a non-forced reconciliation
surfaces the Rebuild-vs-Reuse decision in every outcome (never silently
reuses), and a dismissed decision aborts with a cancellation whose trace is
exactly the prompt: no build, start, stop/remove or run has happened. -/
theorem ensureReady_stale_config_prompts (env : HostEnv) (m c : Nat)
    (hex : env.containerExists = true)
    (hm : env.dcMtimeMs = some m) (hc : env.createdMs = some c) (hlt : c < m) :
    (∀ r, ensureContainerReadyAndGetPort env false = Except.ok r →
        HAction.promptConfigChanged ∈ r.trace) ∧
    (∀ t, ensureContainerReadyAndGetPort env false = Except.error t →
        HAction.promptConfigChanged ∈ t) ∧
    (env.choice1 = none →
        ensureContainerReadyAndGetPort env false =
          Except.error [HAction.promptConfigChanged]) := by
  obtain ⟨ex, mt, cr, mp, run, fp, c1, c2⟩ := env
  simp only at hex hm hc
  subst hex hm hc
  have hsb : shouldRebuildForDevcontainer (some m) (some c) = true := by
    simp [shouldRebuildForDevcontainer, hlt]
  refine ⟨?_, ?_, ?_⟩
  · intro r h
    rcases c1 with _ | (_ | _) <;> cases run <;>
      rcases c2 with _ | (_ | _) <;>
      cases hpt : portTruthy mp <;>
      simp [ensureContainerReadyAndGetPort, hsb, hpt] at h <;>
      (subst h; simp)
  · intro t h
    rcases c1 with _ | (_ | _) <;> cases run <;>
      rcases c2 with _ | (_ | _) <;>
      cases hpt : portTruthy mp <;>
      simp [ensureContainerReadyAndGetPort, hsb, hpt] at h <;>
      (subst h; simp)
  · intro h1
    simp only at h1
    subst h1
    simp [ensureContainerReadyAndGetPort, hsb]

/-- Witness for C3: stale config (mtime 5 > created 3) with a dismissed
dialog cancels with exactly the prompt in the trace. -/
theorem ensureReady_stale_config_prompts_witness :
    ensureContainerReadyAndGetPort
        ⟨true, some 5, some 3, some 22, true, 4000, none, none⟩ false =
      Except.error [HAction.promptConfigChanged] :=
  (ensureReady_stale_config_prompts
    ⟨true, some 5, some 3, some 22, true, 4000, none, none⟩ 5 3 rfl rfl rfl
    (by decide)).2.2 rfl

/-- The environment refuting C2 as stated: `forceRebuild = true`, container
exists and runs, a mapped port (32768) was discovered, and the second dialog
is answered Reuse. -/
def c2CexEnv : HostEnv :=
  ⟨true, none, none, some 32768, true, 4000, none, some Choice2.reuse⟩

/-- C2 counterexample: the second decision point surfaces because the
container is running, Reuse is chosen, a mapped port was discovered — yet the
reconciler still builds and replaces the container (the inner rebuild
condition re-includes `forceRebuild`), contradicting the claim that the
discovered port is returned without a build. -/
theorem ensureReady_reuse_claim_counterexample :
    c2CexEnv.running = true ∧ c2CexEnv.mappedPort = some 32768 ∧
    c2CexEnv.choice2 = some Choice2.reuse ∧
    ensureContainerReadyAndGetPort c2CexEnv true =
      Except.ok ⟨some 32768,
        [HAction.startContainer, HAction.promptRunning, HAction.build,
         HAction.stopRemove, HAction.runContainer]⟩ :=
  ⟨rfl, rfl, rfl, rfl⟩

/-- C2 amended: restricted to non-forced reconciliations.  Whenever the
second decision point surfaced and was answered Reuse, a discovered (truthy)
mapped port is returned unchanged with no build and no container replacement;
with no discovered port the rebuild proceeds despite the Reuse answer. -/
theorem ensureReady_reuse_cancels_when_not_forced (env : HostEnv)
    (r : ReadyResult)
    (h : ensureContainerReadyAndGetPort env false = Except.ok r)
    (hprompt : HAction.promptRunning ∈ r.trace)
    (hreuse : env.choice2 = some Choice2.reuse) :
    (portTruthy env.mappedPort = true →
       r.port = env.mappedPort ∧ HAction.build ∉ r.trace ∧
       HAction.stopRemove ∉ r.trace ∧ HAction.runContainer ∉ r.trace) ∧
    (portTruthy env.mappedPort = false → HAction.build ∈ r.trace) := by
  obtain ⟨ex, mt, cr, mp, run, fp, c1, c2⟩ := env
  simp only at hreuse
  subst hreuse
  cases ex <;> cases run <;>
    cases hsb : shouldRebuildForDevcontainer mt cr <;>
    rcases c1 with _ | (_ | _) <;>
    cases hpt : portTruthy mp <;>
    simp [ensureContainerReadyAndGetPort, hsb, hpt] at h <;>
    (subst h; simp_all)

/-- Witness for C2 amended: non-forced reconciliation, stale config answered
Rebuild, running container answered Reuse, discovered port 2222 returned with
no build. -/
theorem ensureReady_reuse_cancels_when_not_forced_witness :
    (ReadyResult.mk (some 2222)
        [HAction.promptConfigChanged, HAction.startContainer,
         HAction.promptRunning]).port = some 2222 ∧
    HAction.build ∉ (ReadyResult.mk (some 2222)
        [HAction.promptConfigChanged, HAction.startContainer,
         HAction.promptRunning]).trace ∧
    HAction.stopRemove ∉ (ReadyResult.mk (some 2222)
        [HAction.promptConfigChanged, HAction.startContainer,
         HAction.promptRunning]).trace ∧
    HAction.runContainer ∉ (ReadyResult.mk (some 2222)
        [HAction.promptConfigChanged, HAction.startContainer,
         HAction.promptRunning]).trace :=
  (ensureReady_reuse_cancels_when_not_forced
    ⟨true, some 9, some 3, some 2222, true, 4000, some Choice1.rebuild,
      some Choice2.reuse⟩ _ rfl (by decide) rfl).1 rfl

/-! ### Effective-user resolution (`getEffectiveUser`, extension.ts lines 411-426) -/

/-- User-visible notifications emitted during user resolution. -/
inductive UMsg
  | warnWhoamiFallback
  | infoUsingNonRoot
deriving DecidableEq, Repr

/-- Environment of the user-resolution queries: the configured `remoteUser`,
the trimmed output of `whoami` inside the container (`none` when the command
failed or printed nothing), the first `/etc/passwd` entry with uid at least
1000 other than `nobody`, and the first directory under `/home` (each `none`
when the respective query produced nothing). -/
structure UserEnv where
  remoteUser : Option String
  whoamiOut : Option String
  passwdCandidate : Option String
  homeCandidate : Option String
deriving DecidableEq, Repr

/-- `getContainerUsername` (extension.ts lines 292-301): `whoami` output, or
`root` with a warning when the query fails. -/
def getContainerUsername (env : UserEnv) : String × List UMsg :=
  match env.whoamiOut with
  | some u => (u, [])
  | none => ("root", [UMsg.warnWhoamiFallback])

/-- `detectPreferredNonRootUser` (extension.ts lines 303-326): the passwd scan
first, then the first `/home` directory. -/
def detectPreferredNonRootUser (env : UserEnv) : Option String :=
  match env.passwdCandidate with
  | some c => some c
  | none => env.homeCandidate

/-- `getEffectiveUser` (extension.ts lines 411-426): the configured user if
any; otherwise the container default, replaced by a detected non-root
alternative — with an informational notice — when the default is `root`. -/
def getEffectiveUser (env : UserEnv) : String × List UMsg :=
  match env.remoteUser with
  | some u => (u, [])
  | none =>
    let userMsgs := getContainerUsername env
    if userMsgs.1 = "root" then
      match detectPreferredNonRootUser env with
      | some alt => (alt, userMsgs.2 ++ [UMsg.infoUsingNonRoot])
      | none => (userMsgs.1, userMsgs.2)
    else userMsgs

/-- C9 counterexample: no `remoteUser`, `whoami` reports `root`, no passwd
candidate and no `/home` directory.  The superuser identity is kept but NO
informational notice is surfaced, contradicting the claim that a notice is
shown when no alternative is found (the code shows the notice only when an
alternative IS found). -/
theorem getEffectiveUser_no_alt_counterexample :
    getEffectiveUser ⟨none, some "root", none, none⟩ = ("root", []) := rfl

/-- C9 amended: with no configured user and a `root` default identity, a
detected alternative is adopted and the informational notice is surfaced,
while the absence of an alternative keeps `root` without any notice. -/
theorem getEffectiveUser_root_resolution (env : UserEnv)
    (hru : env.remoteUser = none)
    (hw : (getContainerUsername env).1 = "root") :
    (detectPreferredNonRootUser env = none →
        getEffectiveUser env = ("root", (getContainerUsername env).2)) ∧
    (∀ alt, detectPreferredNonRootUser env = some alt →
        getEffectiveUser env =
          (alt, (getContainerUsername env).2 ++ [UMsg.infoUsingNonRoot])) := by
  constructor
  · intro hd
    simp [getEffectiveUser, hru, hw, hd]
  · intro alt hd
    simp [getEffectiveUser, hru, hw, hd]

/-- Witness for C9 amended: passwd candidate `dev` is adopted with the
notice. -/
theorem getEffectiveUser_root_resolution_witness :
    getEffectiveUser ⟨none, some "root", some "dev", none⟩ =
      ("dev", [UMsg.infoUsingNonRoot]) :=
  (getEffectiveUser_root_resolution ⟨none, some "root", some "dev", none⟩
    rfl rfl).2 "dev" rfl

/-! ### Build pipeline staging and cleanup (extension.ts lines 839-939) -/

/-- Scan for `needle` as a contiguous sublist of `hay`. -/
def infixScan (needle : List Char) : List Char → Bool
  | [] => needle.isEmpty
  | c :: rest => needle.isPrefixOf (c :: rest) || infixScan needle rest

/-- JS `hay.includes(needle)`. -/
def strIncludes (hay needle : String) : Bool :=
  infixScan needle.toList hay.toList

/-- JS `text.endsWith("\n")`. -/
def strEndsWithNewline (text : String) : Bool :=
  match text.toList.getLast? with
  | some c => c == Char.ofNat 10
  | none => false

/-- Ownership marker of the staged supervisor script. -/
def entrypointMarker : String := "# Added by codiumDevcontainer: entrypoint"

/-- Idempotency marker of the synthesized Dockerfile additions. -/
def postCreateMarker : String := "# Added by codiumDevcontainer: postCreateCommand"

/-- Content of `assets/devcontainer/entrypoint.sh`, the template staged into
the workspace; its second line is the ownership marker. -/
def templateEntrypoint : String :=
  "#!/usr/bin/env bash\n" ++
  "# Added by codiumDevcontainer: entrypoint\n" ++
  "set -euo pipefail\n" ++
  "\n" ++
  "# Start sshd in foreground (backgrounded here for supervision)\n" ++
  "/usr/sbin/sshd -D &\n" ++
  "SSHD_PID=$!\n" ++
  "\n" ++
  "# Stop file written by remote extension deactivate()\n" ++
  "STOP_FILE=\"$\x7bCODIUM_WS:-/workspace\x7d/.codium-devcontainer-stop\"\n" ++
  "\n" ++
  "cleanup() \x7b\n" ++
  "  if kill -0 \"$SSHD_PID\" 2>/dev/null; then\n" ++
  "    kill \"$SSHD_PID\" || true\n" ++
  "    wait \"$SSHD_PID\" 2>/dev/null || true\n" ++
  "  fi\n" ++
  "  exit 0\n" ++
  "\x7d\n" ++
  "trap cleanup TERM INT\n" ++
  "\n" ++
  "# Detect active SSH connections to port 22\n" ++
  "has_active_ssh() \x7b\n" ++
  "  ss -tan 2>/dev/null | awk \x27$4 ~ /:22$/ && $1 ~ /ESTAB/ \x7bfound=1\x7d END \x7bexit !found\x7d\x27\n" ++
  "  return $?\n" ++
  "\x7d\n" ++
  "\n" ++
  "CHECK_INTERVAL=$\x7bCHECK_INTERVAL:-2\x7d\n" ++
  "IDLE_GRACE_SECONDS=$\x7bIDLE_GRACE_SECONDS:-60\x7d\n" ++
  "idle_elapsed=0\n" ++
  "\n" ++
  "# Poll for stop file or idle ssh\n" ++
  "while true; do\n" ++
  "  if [ -f \"$STOP_FILE\" ]; then\n" ++
  "    rm -f \"$STOP_FILE\" || true\n" ++
  "    cleanup\n" ++
  "  fi\n" ++
  "\n" ++
  "  if has_active_ssh; then\n" ++
  "    idle_elapsed=0\n" ++
  "  else\n" ++
  "    idle_elapsed=$((idle_elapsed + CHECK_INTERVAL))\n" ++
  "    if [ \"$idle_elapsed\" -ge \"$IDLE_GRACE_SECONDS\" ]; then\n" ++
  "      echo \"No active SSH sessions for $\x7bIDLE_GRACE_SECONDS\x7ds; stopping.\" >&2\n" ++
  "      cleanup\n" ++
  "    fi\n" ++
  "  fi\n" ++
  "\n" ++
  "  sleep \"$CHECK_INTERVAL\"\n" ++
  "\n" ++
  "  # In case sshd died unexpectedly, exit\n" ++
  "  if ! kill -0 \"$SSHD_PID\" 2>/dev/null; then\n" ++
  "    exit 1\n" ++
  "  fi\n" ++
  "done\n"

/-- The `postCreateCommand` value of the devcontainer config
(`string | string[] | absent`). -/
inductive PostCreate
  | absent
  | str (s : String)
  | arr (cmds : List String)
deriving DecidableEq, Repr

/-- The two workspace files the build pipeline touches: `.devcontainer/Dockerfile`
and `.devcontainer/entrypoint.sh` (`none` = file absent). -/
structure FsState where
  dockerfile : Option String
  entrypoint : Option String
deriving DecidableEq, Repr

/-- `appendPostCreateToDockerfile` (extension.ts lines 839-870): append the
marker and one `RUN` line per post-create step to an existing Dockerfile,
unless the post-create directive is falsy/empty or the marker is already
present. -/
def appendPostCreateToDockerfile (post : PostCreate) (fs : FsState) : FsState :=
  match fs.dockerfile with
  | none => fs
  | some text =>
    let isEmptyPost :=
      match post with
      | PostCreate.absent => true
      | PostCreate.str s => decide (s = "")
      | PostCreate.arr cmds => cmds.isEmpty
    if isEmptyPost then fs
    else if strIncludes text postCreateMarker then fs
    else
      let cmds :=
        match post with
        | PostCreate.absent => []
        | PostCreate.str s => [s]
        | PostCreate.arr cs => cs
      let lines := postCreateMarker :: cmds.map (fun cmd => "RUN " ++ cmd)
      let newContent :=
        (if strEndsWithNewline text then text else text ++ "\n") ++
        String.intercalate "\n" lines ++ "\n"
      { fs with dockerfile := some newContent }

/-- `stageEntrypointTemporarily` (extension.ts lines 891-908): write the
template over `.devcontainer/entrypoint.sh` unless the file exists AND
already carries the ownership marker. -/
def stageEntrypointTemporarily (fs : FsState) : FsState :=
  let hasMarker :=
    match fs.entrypoint with
    | some t => strIncludes t entrypointMarker
    | none => false
  if hasMarker then fs else { fs with entrypoint := some templateEntrypoint }

/-- `cleanupEntrypointIfManaged` (extension.ts lines 910-924): remove
`.devcontainer/entrypoint.sh` iff it exists and carries the ownership
marker. -/
def cleanupEntrypointIfManaged (fs : FsState) : FsState :=
  match fs.entrypoint with
  | none => fs
  | some t =>
    if strIncludes t entrypointMarker then { fs with entrypoint := none }
    else fs

/-- `buildImageWithEntrypoint` (extension.ts lines 926-939): stage, build
(which may fail), and — in the `finally` — clean up the staged script.  The
docker build itself does not touch the workspace files. -/
def buildImageWithEntrypoint (buildSucceeds : Bool) (fs : FsState) :
    Except Unit Unit × FsState :=
  let fs1 := stageEntrypointTemporarily fs
  let fs2 := cleanupEntrypointIfManaged fs1
  ((if buildSucceeds then Except.ok () else Except.error ()), fs2)

theorem templateEntrypoint_hasMarker :
    strIncludes templateEntrypoint entrypointMarker = true := by decide

/-- Initial state refuting C8: a user Dockerfile and a user-authored
`entrypoint.sh` without the ownership marker. -/
def c8FsInit : FsState :=
  ⟨some "FROM node:22-bookworm\n", some "#!/bin/sh\nexec tini -- sshd\n"⟩

/-- Final state after appending a post-create step and running a failing
build on `c8FsInit`. -/
def c8FsFinal : FsState :=
  (buildImageWithEntrypoint false
    (appendPostCreateToDockerfile (PostCreate.arr ["echo hi"]) c8FsInit)).2

/-- C8 counterexample: after the (failing) build invocation the synthesized
marker additions are still in the Dockerfile — they are never removed — and
the pre-existing user-authored `entrypoint.sh`, which lacked the ownership
marker, has been clobbered by staging and then removed. -/
theorem buildPipeline_cleanup_counterexample :
    c8FsInit.entrypoint = some "#!/bin/sh\nexec tini -- sshd\n" ∧
    strIncludes (c8FsInit.entrypoint.getD "") entrypointMarker = false ∧
    c8FsFinal.entrypoint = none ∧
    strIncludes (c8FsFinal.dockerfile.getD "") postCreateMarker = true := by
  refine ⟨rfl, by decide, by decide, by decide⟩

theorem buildImageWithEntrypoint_final_state (fs : FsState) (ok : Bool) :
    (buildImageWithEntrypoint ok fs).2.entrypoint = none ∧
    (buildImageWithEntrypoint ok fs).2.dockerfile = fs.dockerfile := by
  obtain ⟨df, ep⟩ := fs
  unfold buildImageWithEntrypoint stageEntrypointTemporarily
    cleanupEntrypointIfManaged
  rcases ep with _ | t
  · simp [templateEntrypoint_hasMarker]
  · by_cases hm : strIncludes t entrypointMarker = true
    · simp [hm]
    · simp only [Bool.not_eq_true] at hm
      simp [hm, templateEntrypoint_hasMarker]

/-- C8 amended: on completion of every build invocation — success or failure
— the workspace `entrypoint.sh` is always removed (staging first overwrites
any copy lacking the ownership marker, so even a pre-existing user-authored
unmarked copy is clobbered and removed), while the Dockerfile, including the
synthesized marker-guarded additions, is left untouched by the build and
cleanup. -/
theorem buildPipeline_cleanup_behavior (fs : FsState) (post : PostCreate)
    (buildSucceeds : Bool) :
    (buildImageWithEntrypoint buildSucceeds
        (appendPostCreateToDockerfile post fs)).2.entrypoint = none ∧
    (buildImageWithEntrypoint buildSucceeds
        (appendPostCreateToDockerfile post fs)).2.dockerfile =
      (appendPostCreateToDockerfile post fs).dockerfile :=
  buildImageWithEntrypoint_final_state (appendPostCreateToDockerfile post fs)
    buildSucceeds

/-- Witness for C8 amended at a concrete state: a marked Dockerfile addition
survives a failing build while the staged entrypoint is gone. -/
theorem buildPipeline_cleanup_behavior_witness :
    (buildImageWithEntrypoint false
        (appendPostCreateToDockerfile (PostCreate.arr ["echo hi"]) c8FsInit)).2.entrypoint =
      none :=
  (buildPipeline_cleanup_behavior c8FsInit (PostCreate.arr ["echo hi"]) false).1

end Codium
